import Mathlib

/-!
Verification development for the input-streams module.

The module normalizes raw device state (keyboard, mouse buttons, mouse wheel
and motion events, gamepad buttons and axes) into a uniform query model:
`input_pressed`, `input_value` and `input_axis_pair` over an abstract input
algebra, with per-instance accumulators for the continuous event streams.

Modelling conventions: `f32` is modelled as `ℚ`; bevy `Input<T>` press sets
are modelled as `T → Bool` predicates; bevy `Axis<T>` tables as
`T → Option ℚ`; bevy `Events<T>` logs as `List T` (an event reader obtained
inside a method reads the whole log); device identifiers (`KeyCode`,
`ScanCode`, `MouseButton`, `Gamepad`, gamepad button and axis ids) are opaque
and modelled as `Nat`.
-/

/-- 2-D vector with rational components, modelling bevy `Vec2` (`f32`
components modelled as `ℚ`). -/
structure Vec2 where
  x : ℚ
  y : ℚ
  deriving DecidableEq

/-- Mouse-wheel scroll unit (bevy `MouseScrollUnit`): line or pixel deltas. -/
inductive MouseScrollUnit where
  | line
  | pixel
  deriving DecidableEq

/-- Momentum phase of a wheel event (bevy fork `MouseScrollMomentumPhase`);
the module only tests whether a phase equals `Momentum`, so the model keeps
one non-momentum constructor. -/
inductive MouseScrollMomentumPhase where
  | active
  | momentum
  deriving DecidableEq

/-- A mouse-wheel event (bevy `MouseWheel`). -/
structure MouseWheel where
  x : ℚ
  y : ℚ
  unit : MouseScrollUnit
  momentum_phase : MouseScrollMomentumPhase
  deriving DecidableEq

/-- A mouse-motion event (bevy `MouseMotion`). -/
structure MouseMotion where
  delta : Vec2
  deriving DecidableEq

/-- Modelled from the spec: mouse-wheel axis selector (`MouseWheelAxisType`
of `crate::axislike`, whose source file is not under `src/`). -/
inductive MouseWheelAxisType where
  | x
  | y
  deriving DecidableEq

/-- Modelled from the spec: mouse-motion axis selector (`MouseMotionAxisType`
of `crate::axislike`, whose source file is not under `src/`). -/
inductive MouseMotionAxisType where
  | x
  | y
  deriving DecidableEq

/-- Modelled from the spec: the source of a single analog axis (`AxisType`
of `crate::axislike`): a gamepad axis id, a mouse-wheel axis, or a
mouse-motion axis (spec section 3). -/
inductive AxisType where
  | gamepad (axis_type : Nat)
  | mouseWheel (axis_type : MouseWheelAxisType)
  | mouseMotion (axis_type : MouseMotionAxisType)
  deriving DecidableEq

/-- Modelled from the spec: a single analog source with a dead-zone band
(`SingleAxis` of `crate::axislike`): an `axis_type` plus thresholds
`negative_low` and `positive_low` (spec section 3). -/
structure SingleAxis where
  axis_type : AxisType
  negative_low : ℚ
  positive_low : ℚ
  deriving DecidableEq

/-- Modelled from the spec: a pair of `SingleAxis` for X and Y
(`DualAxis` of `crate::axislike`). -/
structure DualAxis where
  x : SingleAxis
  y : SingleAxis
  deriving DecidableEq

/-- Modelled from the spec: a mouse-wheel direction
(`MouseWheelDirection` of `crate::buttonlike`). -/
inductive MouseWheelDirection where
  | up
  | down
  | left
  | right
  deriving DecidableEq

/-- Modelled from the spec: a mouse-motion direction
(`MouseMotionDirection` of `crate::buttonlike`). -/
inductive MouseMotionDirection where
  | up
  | down
  | left
  | right
  deriving DecidableEq

/-- Modelled from the spec: a keyboard modifier resolving to two alternative
key codes (`Modifier` of `crate::user_input`, spec section 3). -/
structure Modifier where
  first_key : Nat
  second_key : Nat
  deriving DecidableEq

/-- Modelled from the spec: `Modifier::key_codes`, the two alternative
keyboard keys a modifier resolves to. -/
def Modifier.key_codes (m : Modifier) : Nat × Nat := (m.first_key, m.second_key)

/-- Modelled from the spec: the atomic input kinds (`InputKind` of
`crate::user_input`, spec section 3). Exactly one variant tag per value. -/
inductive InputKind where
  | keyboard (key : Nat)
  | keyLocation (scan_code : Nat)
  | modifier (m : Modifier)
  | mouse (button : Nat)
  | mouseWheel (direction : MouseWheelDirection)
  | mouseMotion (direction : MouseMotionDirection)
  | gamepadButton (button_type : Nat)
  | singleAxis (axis : SingleAxis)
  | dualAxis (axis : DualAxis)
  deriving DecidableEq

/-- Modelled from the spec: a virtual D-pad built from four inputs
(`VirtualDPad` of `crate::axislike`). -/
structure VirtualDPad where
  up : InputKind
  down : InputKind
  left : InputKind
  right : InputKind
  deriving DecidableEq

/-- Modelled from the spec: a virtual axis built from two inputs
(`VirtualAxis` of `crate::axislike`). -/
structure VirtualAxis where
  negative : InputKind
  positive : InputKind
  deriving DecidableEq

/-- Modelled from the spec: the public input vocabulary (`UserInput` of
`crate::user_input`, spec section 3). The `Chord` set (a `PetitSet` of
capacity 8) is modelled as a list, which preserves iteration order. -/
inductive UserInput where
  | single (kind : InputKind)
  | chord (kinds : List InputKind)
  | virtualDPad (dpad : VirtualDPad)
  | virtualAxis (axis : VirtualAxis)
  deriving DecidableEq

/-- Modelled from the spec: a resolved 2-D value (`DualAxisData` of
`crate::axislike`). -/
structure DualAxisData where
  x : ℚ
  y : ℚ
  deriving DecidableEq

/-- Modelled from the spec: `DualAxisData::new`. -/
def DualAxisData.new (x y : ℚ) : DualAxisData := ⟨x, y⟩

/-- Modelled from the spec: the Euclidean magnitude of the resolved pair
(spec section 4.4; `Vec2::length` of the external math library). Exact square
roots are not available on `ℚ`, so the rational floor square root stands in;
no claim below depends on this function's values. -/
def DualAxisData.length (d : DualAxisData) : ℚ := Rat.sqrt (d.x * d.x + d.y * d.y)

/-- A gamepad button keyed by gamepad id and button id (bevy
`GamepadButton`). -/
structure GamepadButton where
  gamepad : Nat
  button_type : Nat
  deriving DecidableEq

/-- A gamepad axis keyed by gamepad id and axis id (bevy `GamepadAxis`). -/
structure GamepadAxis where
  gamepad : Nat
  axis_type : Nat
  deriving DecidableEq

/-- The read-only collection of device streams (`InputStreams`). Press sets
are predicates, axis tables are partial maps, event streams are lists. -/
structure InputStreams where
  gamepad_buttons : GamepadButton → Bool
  gamepad_button_axes : GamepadButton → Option ℚ
  gamepad_axes : GamepadAxis → Option ℚ
  gamepads : List Nat
  keycodes : Option (Nat → Bool)
  scan_codes : Option (Nat → Bool)
  mouse_buttons : Option (Nat → Bool)
  mouse_wheel : Option (List MouseWheel)
  mouse_motion : List MouseMotion
  associated_gamepad : Option Nat

/-- `InputStreams::guess_gamepad`: the associated gamepad if set, otherwise
the first registered gamepad, if any. -/
def InputStreams.guess_gamepad (s : InputStreams) : Option Nat :=
  match s.associated_gamepad with
  | some gamepad => some gamepad
  | none => s.gamepads.head?

/-- `PreparedInputStreams`: the streams plus the two lazily computed
accumulators, each guarded by a cached flag. -/
structure PreparedInputStreams where
  input_streams : InputStreams
  mouse_wheel_cached : Bool
  total_mouse_wheel_movement : Vec2
  mouse_movement_cached : Bool
  total_mouse_movement : Vec2

/-- The `From<&InputStreams>` impl for `PreparedInputStreams`: both caches
start unpopulated with zero accumulators. -/
def PreparedInputStreams.fromStreams (input_streams : InputStreams) : PreparedInputStreams :=
  { input_streams := input_streams
    mouse_wheel_cached := false
    total_mouse_wheel_movement := ⟨0, 0⟩
    mouse_movement_cached := false
    total_mouse_movement := ⟨0, 0⟩ }

/-- The `PIXELS_PER_LINE` constant of `cache_mouse_wheel`: scale applied to
line-unit wheel events. -/
def PIXELS_PER_LINE : ℚ := 14

/-- The accumulation loop of `cache_mouse_wheel`: momentum-phase events are
skipped, line-unit deltas are scaled by `PIXELS_PER_LINE`, pixel-unit deltas
are added unscaled. -/
def wheel_total (events : List MouseWheel) : Vec2 :=
  events.foldl
    (fun total event =>
      if event.momentum_phase = MouseScrollMomentumPhase.momentum then total
      else
        let scale : ℚ :=
          match event.unit with
          | MouseScrollUnit.line => PIXELS_PER_LINE
          | MouseScrollUnit.pixel => 1
        ⟨total.x + event.x * scale, total.y + event.y * scale⟩)
    ⟨0, 0⟩

/-- The accumulation loop of `cache_mouse_movement`: sum of all motion
deltas. -/
def motion_total (events : List MouseMotion) : Vec2 :=
  events.foldl (fun total event => ⟨total.x + event.delta.x, total.y + event.delta.y⟩) ⟨0, 0⟩

/-- `PreparedInputStreams::cache_mouse_movement`: no-op when already cached,
otherwise drain the motion events into the accumulator and mark cached. -/
def PreparedInputStreams.cache_mouse_movement (p : PreparedInputStreams) : PreparedInputStreams :=
  if p.mouse_movement_cached then p
  else
    { p with
      mouse_movement_cached := true
      total_mouse_movement := motion_total p.input_streams.mouse_motion }

/-- `PreparedInputStreams::cache_mouse_wheel`: no-op when already cached or
when no wheel-event source exists (the flag is left unset in that case),
otherwise drain the wheel events into the accumulator and mark cached. -/
def PreparedInputStreams.cache_mouse_wheel (p : PreparedInputStreams) : PreparedInputStreams :=
  if p.mouse_wheel_cached then p
  else
    match p.input_streams.mouse_wheel with
    | none => p
    | some events =>
      { p with
        mouse_wheel_cached := true
        total_mouse_wheel_movement := wheel_total events }

/-- `PreparedInputStreams::prepare_input_kind`: fill the wheel cache for a
`MouseWheel` direction or a `SingleAxis` with mouse-wheel source, the motion
cache for a `MouseMotion` direction or a `SingleAxis` with mouse-motion
source, and do nothing for every other kind. -/
def PreparedInputStreams.prepare_input_kind (p : PreparedInputStreams) (input_kind : InputKind) :
    PreparedInputStreams :=
  match input_kind with
  | InputKind.mouseWheel _ => p.cache_mouse_wheel
  | InputKind.mouseMotion _ => p.cache_mouse_movement
  | InputKind.singleAxis single_axis =>
    match single_axis.axis_type with
    | AxisType.mouseWheel _ => p.cache_mouse_wheel
    | AxisType.mouseMotion _ => p.cache_mouse_movement
    | _ => p
  | _ => p

/-- `PreparedInputStreams::prepare_input`: prepare every kind mentioned by a
user input. -/
def PreparedInputStreams.prepare_input (p : PreparedInputStreams) (user_input : UserInput) :
    PreparedInputStreams :=
  match user_input with
  | UserInput.single input_kind => p.prepare_input_kind input_kind
  | UserInput.chord chord => chord.foldl PreparedInputStreams.prepare_input_kind p
  | UserInput.virtualDPad virtual_dpad =>
    ((((p.prepare_input_kind virtual_dpad.up).prepare_input_kind
        virtual_dpad.down).prepare_input_kind
        virtual_dpad.left).prepare_input_kind
        virtual_dpad.right)
  | UserInput.virtualAxis virtual_axis =>
    (p.prepare_input_kind virtual_axis.negative).prepare_input_kind virtual_axis.positive

/-- `PreparedInputStreams::prepare_inputs`: prepare each input in turn. -/
def PreparedInputStreams.prepare_inputs (p : PreparedInputStreams) (user_inputs : List UserInput) :
    PreparedInputStreams :=
  user_inputs.foldl PreparedInputStreams.prepare_input p

/-- `PreparedInputStreams::from_inputs`: construct the cache from streams and
prepare the given inputs. -/
def PreparedInputStreams.from_inputs (input_streams : InputStreams)
    (user_inputs : List UserInput) : PreparedInputStreams :=
  (PreparedInputStreams.fromStreams input_streams).prepare_inputs user_inputs

/-- The `value_in_axis_range` helper of `input_value`: 0 when the value lies
inside the dead-zone band, the value unchanged otherwise. -/
def value_in_axis_range (axis : SingleAxis) (value : ℚ) : ℚ :=
  if axis.negative_low ≤ value ∧ value ≤ axis.positive_low then 0 else value

/-- The `Single(SingleAxis)` arm of `input_value`, factored out: read the raw
source (gamepad axis table, wheel accumulator or motion accumulator) and pass
it through `value_in_axis_range`; 0 when no gamepad resolves. -/
def PreparedInputStreams.single_axis_value (p : PreparedInputStreams) (single_axis : SingleAxis) :
    ℚ :=
  match single_axis.axis_type with
  | AxisType.gamepad axis_type =>
    match p.input_streams.guess_gamepad with
    | some gamepad =>
      value_in_axis_range single_axis
        ((p.input_streams.gamepad_axes ⟨gamepad, axis_type⟩).getD 0)
    | none => 0
  | AxisType.mouseWheel axis_type =>
    value_in_axis_range single_axis
      (match axis_type with
       | MouseWheelAxisType.x => p.total_mouse_wheel_movement.x
       | MouseWheelAxisType.y => p.total_mouse_wheel_movement.y)
  | AxisType.mouseMotion axis_type =>
    value_in_axis_range single_axis
      (match axis_type with
       | MouseMotionAxisType.x => p.total_mouse_movement.x
       | MouseMotionAxisType.y => p.total_mouse_movement.y)

/-- The `SingleAxis` arm of `button_pressed`, factored out: the axis value
(computed by `input_value` on the wrapped single input, which equals
`single_axis_value`) must fall strictly outside the dead-zone band. -/
def PreparedInputStreams.single_axis_pressed (p : PreparedInputStreams) (axis : SingleAxis) :
    Bool :=
  let value := p.single_axis_value axis
  decide (value < axis.negative_low) || decide (axis.positive_low < value)

/-- `PreparedInputStreams::button_pressed`, per input kind. The `DualAxis`
arm is the disjunction of its two `SingleAxis` arms (the source recurses into
`button_pressed` on each component; the factored `single_axis_pressed` is
that arm, see `button_pressed_dualAxis` below). -/
def PreparedInputStreams.button_pressed (p : PreparedInputStreams) (button : InputKind) : Bool :=
  match button with
  | InputKind.dualAxis axis => p.single_axis_pressed axis.x || p.single_axis_pressed axis.y
  | InputKind.singleAxis axis => p.single_axis_pressed axis
  | InputKind.gamepadButton gamepad_button =>
    match p.input_streams.guess_gamepad with
    | some gamepad => p.input_streams.gamepad_buttons ⟨gamepad, gamepad_button⟩
    | none => false
  | InputKind.keyboard keycode =>
    match p.input_streams.keycodes with
    | some keycodes => keycodes keycode
    | none => false
  | InputKind.keyLocation scan_code =>
    match p.input_streams.scan_codes with
    | some scan_codes => scan_codes scan_code
    | none => false
  | InputKind.modifier modifier =>
    match p.input_streams.keycodes with
    | some keycodes => keycodes modifier.key_codes.1 || keycodes modifier.key_codes.2
    | none => false
  | InputKind.mouse mouse_button =>
    match p.input_streams.mouse_buttons with
    | some mouse_buttons => mouse_buttons mouse_button
    | none => false
  | InputKind.mouseWheel direction =>
    match direction with
    | MouseWheelDirection.up => decide (0 < p.total_mouse_wheel_movement.y)
    | MouseWheelDirection.down => decide (p.total_mouse_wheel_movement.y < 0)
    | MouseWheelDirection.right => decide (0 < p.total_mouse_wheel_movement.x)
    | MouseWheelDirection.left => decide (p.total_mouse_wheel_movement.x < 0)
  | InputKind.mouseMotion direction =>
    match direction with
    | MouseMotionDirection.up => decide (0 < p.total_mouse_movement.y)
    | MouseMotionDirection.down => decide (p.total_mouse_movement.y < 0)
    | MouseMotionDirection.right => decide (0 < p.total_mouse_movement.x)
    | MouseMotionDirection.left => decide (p.total_mouse_movement.x < 0)

/-- `PreparedInputStreams::all_buttons_pressed`: the loop returns false at
the first unpressed button, true when every button matched. -/
def PreparedInputStreams.all_buttons_pressed (p : PreparedInputStreams)
    (buttons : List InputKind) : Bool :=
  buttons.all (fun button => p.button_pressed button)

/-- `PreparedInputStreams::input_pressed`, per user input: delegate singles,
conjoin chords, disjoin the four D-pad members and the two virtual-axis
members. -/
def PreparedInputStreams.input_pressed (p : PreparedInputStreams) (input : UserInput) : Bool :=
  match input with
  | UserInput.single button => p.button_pressed button
  | UserInput.chord buttons => p.all_buttons_pressed buttons
  | UserInput.virtualDPad dpad =>
    p.button_pressed dpad.up || p.button_pressed dpad.down ||
      p.button_pressed dpad.left || p.button_pressed dpad.right
  | UserInput.virtualAxis axis =>
    p.button_pressed axis.negative || p.button_pressed axis.positive

/-- `PreparedInputStreams::any_pressed`: the loop returns true at the first
pressed input, false when none matched. -/
def PreparedInputStreams.any_pressed (p : PreparedInputStreams) (inputs : List UserInput) :
    Bool :=
  inputs.any (fun input => p.input_pressed input)

/-- The `Single(DualAxis)` arm of `input_axis_pair`, factored out: compute
the two dead-zone-filtered component values, then gate coarsely — if neither
filtered component falls outside its own thresholds the pair is `(0, 0)`,
otherwise the filtered components are returned unmodified. -/
def PreparedInputStreams.dual_axis_pair (p : PreparedInputStreams) (dual_axis : DualAxis) :
    DualAxisData :=
  let x := p.single_axis_value dual_axis.x
  let y := p.single_axis_value dual_axis.y
  if dual_axis.x.positive_low < x ∨ x < dual_axis.x.negative_low ∨
      dual_axis.y.positive_low < y ∨ y < dual_axis.y.negative_low
  then DualAxisData.new x y
  else DualAxisData.new 0 0

/-- The `Single(kind)` arms of `input_value`, factored out so the evaluator
is structurally recursive: the `SingleAxis`, `DualAxis` and `GamepadButton`
arms plus the `use_button_value` fallback (1 when pressed, else 0) for every
other kind. On a `DualAxis` the source takes the length of
`input_axis_pair`, which on a dual axis is always `some (dual_axis_pair _)`
(see `input_kind_value_dualAxis` below). -/
def PreparedInputStreams.input_kind_value (p : PreparedInputStreams) (kind : InputKind) : ℚ :=
  match kind with
  | InputKind.singleAxis single_axis => p.single_axis_value single_axis
  | InputKind.dualAxis dual_axis => (p.dual_axis_pair dual_axis).length
  | InputKind.gamepadButton button_type =>
    match p.input_streams.guess_gamepad with
    | some gamepad =>
      match p.input_streams.gamepad_button_axes ⟨gamepad, button_type⟩ with
      | some value => value
      | none =>
        if p.input_pressed (UserInput.single (InputKind.gamepadButton button_type)) then 1 else 0
    | none => 0
  | other => if p.input_pressed (UserInput.single other) then 1 else 0

/-- `PreparedInputStreams::input_axis_pair`: defined for `DualAxis` and
`VirtualDPad`, `none` otherwise. The D-pad components are the absolute
values of the right/left and up/down member values, subtracted. -/
def PreparedInputStreams.input_axis_pair (p : PreparedInputStreams) (input : UserInput) :
    Option DualAxisData :=
  match input with
  | UserInput.single (InputKind.dualAxis dual_axis) => some (p.dual_axis_pair dual_axis)
  | UserInput.virtualDPad dpad =>
    some (DualAxisData.new
      (|p.input_kind_value dpad.right| - |p.input_kind_value dpad.left|)
      (|p.input_kind_value dpad.up| - |p.input_kind_value dpad.down|))
  | _ => none

/-- `PreparedInputStreams::input_value`: single inputs delegate to
`input_kind_value`; a virtual axis is the difference of absolute member
values; a virtual D-pad is the length of its axis pair; a chord uses the
binary `use_button_value` fallback. -/
def PreparedInputStreams.input_value (p : PreparedInputStreams) (input : UserInput) : ℚ :=
  match input with
  | UserInput.single kind => p.input_kind_value kind
  | UserInput.virtualAxis axis =>
    |p.input_kind_value axis.positive| - |p.input_kind_value axis.negative|
  | UserInput.virtualDPad _ =>
    ((p.input_axis_pair input).getD (DualAxisData.new 0 0)).length
  | UserInput.chord _ => if p.input_pressed input then 1 else 0

/-- A streams value with every optional source absent, no gamepads, and
empty event logs; used to instantiate theorems at concrete inputs. -/
def emptyStreams : InputStreams :=
  { gamepad_buttons := fun _ => false
    gamepad_button_axes := fun _ => none
    gamepad_axes := fun _ => none
    gamepads := []
    keycodes := none
    scan_codes := none
    mouse_buttons := none
    mouse_wheel := none
    mouse_motion := []
    associated_gamepad := none }

/-- A fresh prepared state over the empty streams, used to instantiate
theorems at concrete inputs. -/
def freshEmpty : PreparedInputStreams := PreparedInputStreams.fromStreams emptyStreams

/-- A single-axis descriptor whose dead-zone band `[3/10, 1/2]` does not
contain zero, over gamepad axis 0. -/
def axC1 : SingleAxis := ⟨AxisType.gamepad 0, 3/10, 1/2⟩

/-- Streams with gamepad 0 pinned and its axis 0 reading `2/5`, inside the
band of `axC1`. -/
def sC1 : InputStreams :=
  { emptyStreams with
    associated_gamepad := some 0
    gamepad_axes := fun ga => if ga = ⟨0, 0⟩ then some (2/5) else none }

/-- The prepared state over `sC1`. -/
def pC1 : PreparedInputStreams := PreparedInputStreams.fromStreams sC1

/-- A non-momentum line-unit wheel event with `x = 0`, `y = 1`. -/
def wheelEventLine1 : MouseWheel :=
  ⟨0, 1, MouseScrollUnit.line, MouseScrollMomentumPhase.active⟩

/-- A non-momentum pixel-unit wheel event with `x = 0`, `y = 2`. -/
def wheelEventPixel2 : MouseWheel :=
  ⟨0, 2, MouseScrollUnit.pixel, MouseScrollMomentumPhase.active⟩

/-- Streams whose wheel log holds one upward line-unit event. -/
def sC2 : InputStreams := { emptyStreams with mouse_wheel := some [wheelEventLine1] }

/-- Streams whose wheel log holds the two events of end-to-end scenario B. -/
def sB : InputStreams :=
  { emptyStreams with mouse_wheel := some [wheelEventLine1, wheelEventPixel2] }

/-- The x component of the scenario-D dual axis: gamepad axis 0 with
dead-zone `[-1/10, 1/10]`. -/
def axC3x : SingleAxis := ⟨AxisType.gamepad 0, -(1/10), 1/10⟩

/-- The y component of the scenario-D dual axis: gamepad axis 1 with
dead-zone `[-1/10, 1/10]`. -/
def axC3y : SingleAxis := ⟨AxisType.gamepad 1, -(1/10), 1/10⟩

/-- Streams for scenario D: gamepad 0 pinned, axis 0 reading `1/20` (inside
its dead-zone), axis 1 reading `1/2` (outside its dead-zone). -/
def sC3 : InputStreams :=
  { emptyStreams with
    associated_gamepad := some 0
    gamepad_axes := fun ga =>
      if ga = ⟨0, 0⟩ then some (1/20) else if ga = ⟨0, 1⟩ then some (1/2) else none }

/-- Faithfulness: `input_value` on a wrapped single kind is exactly
`input_kind_value`, so the factored `Single(_)` arms agree with the source's
`input_value` on every single input. -/
theorem input_value_single (p : PreparedInputStreams) (k : InputKind) :
    p.input_value (UserInput.single k) = p.input_kind_value k := rfl

/-- Faithfulness: the `DualAxis` arm of `button_pressed` is the disjunction
of the two `SingleAxis` arms, as in the source's recursive calls. -/
theorem button_pressed_dualAxis (p : PreparedInputStreams) (d : DualAxis) :
    p.button_pressed (InputKind.dualAxis d) =
      (p.button_pressed (InputKind.singleAxis d.x) ||
        p.button_pressed (InputKind.singleAxis d.y)) := rfl

/-- Faithfulness: `single_axis_pressed` tests the value computed by
`input_value` on the wrapped single axis against the thresholds, as the
source's `SingleAxis` arm of `button_pressed` does. -/
theorem single_axis_pressed_eq (p : PreparedInputStreams) (sa : SingleAxis) :
    p.single_axis_pressed sa =
      (decide (p.input_value (UserInput.single (InputKind.singleAxis sa)) < sa.negative_low) ||
        decide (sa.positive_low < p.input_value (UserInput.single (InputKind.singleAxis sa)))) :=
  rfl

/-- Faithfulness: the `DualAxis` arm of `input_kind_value` is the length of
`input_axis_pair` with the `unwrap_or_default`, as in the source. -/
theorem input_kind_value_dualAxis (p : PreparedInputStreams) (d : DualAxis) :
    p.input_kind_value (InputKind.dualAxis d) =
      ((p.input_axis_pair (UserInput.single (InputKind.dualAxis d))).getD
        (DualAxisData.new 0 0)).length := rfl

/-- A prepared-streams state whose wheel cache can no longer change: either
already cached, or no wheel-event source exists. -/
def WheelSettled (p : PreparedInputStreams) : Prop :=
  p.mouse_wheel_cached = true ∨ p.input_streams.mouse_wheel = none

/-- `cache_mouse_movement` never touches the wheel cache fields or the
borrowed streams. -/
theorem cache_mouse_movement_wheel_fields (p : PreparedInputStreams) :
    (p.cache_mouse_movement).mouse_wheel_cached = p.mouse_wheel_cached ∧
      (p.cache_mouse_movement).total_mouse_wheel_movement = p.total_mouse_wheel_movement ∧
      (p.cache_mouse_movement).input_streams = p.input_streams := by
  unfold PreparedInputStreams.cache_mouse_movement
  split <;> simp

/-- `cache_mouse_wheel` is the identity on a settled state. -/
theorem cache_mouse_wheel_stable (p : PreparedInputStreams) (h : WheelSettled p) :
    p.cache_mouse_wheel = p := by
  rcases h with h | h
  · simp [PreparedInputStreams.cache_mouse_wheel, h]
  · unfold PreparedInputStreams.cache_mouse_wheel
    split
    · rfl
    · rw [h]

/-- `cache_mouse_wheel` on an unsettled state with a wheel source drains the
events once and marks the cache. -/
theorem cache_mouse_wheel_fills (p : PreparedInputStreams) (es : List MouseWheel)
    (hc : p.mouse_wheel_cached = false) (h : p.input_streams.mouse_wheel = some es) :
    p.cache_mouse_wheel =
      { p with mouse_wheel_cached := true, total_mouse_wheel_movement := wheel_total es } := by
  simp [PreparedInputStreams.cache_mouse_wheel, hc, h]

/-- `prepare_input_kind` preserves the wheel cache fields and the streams of
a settled state. -/
theorem prepare_input_kind_wheel_stable (p : PreparedInputStreams) (k : InputKind)
    (h : WheelSettled p) :
    (p.prepare_input_kind k).mouse_wheel_cached = p.mouse_wheel_cached ∧
      (p.prepare_input_kind k).total_mouse_wheel_movement = p.total_mouse_wheel_movement ∧
      (p.prepare_input_kind k).input_streams = p.input_streams := by
  cases k with
  | mouseWheel d =>
    have e : p.prepare_input_kind (InputKind.mouseWheel d) = p := cache_mouse_wheel_stable p h
    rw [e]
    exact ⟨rfl, rfl, rfl⟩
  | mouseMotion d => exact cache_mouse_movement_wheel_fields p
  | singleAxis sa =>
    obtain ⟨t, lo, hi⟩ := sa
    cases t with
    | gamepad a => exact ⟨rfl, rfl, rfl⟩
    | mouseWheel a =>
      have e : p.prepare_input_kind
          (InputKind.singleAxis ⟨AxisType.mouseWheel a, lo, hi⟩) = p :=
        cache_mouse_wheel_stable p h
      rw [e]
      exact ⟨rfl, rfl, rfl⟩
    | mouseMotion a => exact cache_mouse_movement_wheel_fields p
  | keyboard a => exact ⟨rfl, rfl, rfl⟩
  | keyLocation a => exact ⟨rfl, rfl, rfl⟩
  | modifier a => exact ⟨rfl, rfl, rfl⟩
  | mouse a => exact ⟨rfl, rfl, rfl⟩
  | gamepadButton a => exact ⟨rfl, rfl, rfl⟩
  | dualAxis a => exact ⟨rfl, rfl, rfl⟩

/-- Transfer of settledness along wheel-field equalities. -/
theorem wheel_settled_of_eqs {p q : PreparedInputStreams} (h : WheelSettled p)
    (h1 : q.mouse_wheel_cached = p.mouse_wheel_cached) (h3 : q.input_streams = p.input_streams) :
    WheelSettled q := by
  rcases h with h | h
  · exact Or.inl (h1.trans h)
  · exact Or.inr (by rw [h3, h])

/-- `prepare_input_kind` keeps a settled state settled. -/
theorem prepare_input_kind_wheel_settled (p : PreparedInputStreams) (k : InputKind)
    (h : WheelSettled p) : WheelSettled (p.prepare_input_kind k) := by
  obtain ⟨h1, -, h3⟩ := prepare_input_kind_wheel_stable p k h
  exact wheel_settled_of_eqs h h1 h3

/-- Folding `prepare_input_kind` over a chord preserves the wheel cache
fields and streams of a settled state. -/
theorem foldl_prepare_input_kind_wheel_stable (l : List InputKind) :
    ∀ p : PreparedInputStreams, WheelSettled p →
      (l.foldl PreparedInputStreams.prepare_input_kind p).mouse_wheel_cached =
          p.mouse_wheel_cached ∧
        (l.foldl PreparedInputStreams.prepare_input_kind p).total_mouse_wheel_movement =
          p.total_mouse_wheel_movement ∧
        (l.foldl PreparedInputStreams.prepare_input_kind p).input_streams = p.input_streams := by
  induction l with
  | nil => exact fun p _ => ⟨rfl, rfl, rfl⟩
  | cons k rest ih =>
    intro p h
    obtain ⟨h1, h2, h3⟩ := prepare_input_kind_wheel_stable p k h
    obtain ⟨g1, g2, g3⟩ := ih (p.prepare_input_kind k) (prepare_input_kind_wheel_settled p k h)
    exact ⟨g1.trans h1, g2.trans h2, g3.trans h3⟩

/-- `prepare_input` preserves the wheel cache fields and streams of a settled
state. -/
theorem prepare_input_wheel_stable (p : PreparedInputStreams) (u : UserInput)
    (h : WheelSettled p) :
    (p.prepare_input u).mouse_wheel_cached = p.mouse_wheel_cached ∧
      (p.prepare_input u).total_mouse_wheel_movement = p.total_mouse_wheel_movement ∧
      (p.prepare_input u).input_streams = p.input_streams := by
  cases u with
  | single k => exact prepare_input_kind_wheel_stable p k h
  | chord l => exact foldl_prepare_input_kind_wheel_stable l p h
  | virtualDPad v =>
    obtain ⟨a1, a2, a3⟩ := prepare_input_kind_wheel_stable p v.up h
    have hu := prepare_input_kind_wheel_settled p v.up h
    obtain ⟨b1, b2, b3⟩ := prepare_input_kind_wheel_stable _ v.down hu
    have hd := prepare_input_kind_wheel_settled _ v.down hu
    obtain ⟨c1, c2, c3⟩ := prepare_input_kind_wheel_stable _ v.left hd
    have hl := prepare_input_kind_wheel_settled _ v.left hd
    obtain ⟨d1, d2, d3⟩ := prepare_input_kind_wheel_stable _ v.right hl
    exact ⟨((d1.trans c1).trans b1).trans a1, ((d2.trans c2).trans b2).trans a2,
      ((d3.trans c3).trans b3).trans a3⟩
  | virtualAxis v =>
    obtain ⟨a1, a2, a3⟩ := prepare_input_kind_wheel_stable p v.negative h
    have hn := prepare_input_kind_wheel_settled p v.negative h
    obtain ⟨b1, b2, b3⟩ := prepare_input_kind_wheel_stable _ v.positive hn
    exact ⟨b1.trans a1, b2.trans a2, b3.trans a3⟩

/-- `prepare_input` keeps a settled state settled. -/
theorem prepare_input_wheel_settled (p : PreparedInputStreams) (u : UserInput)
    (h : WheelSettled p) : WheelSettled (p.prepare_input u) := by
  obtain ⟨h1, -, h3⟩ := prepare_input_wheel_stable p u h
  exact wheel_settled_of_eqs h h1 h3

/-- `prepare_inputs` preserves the wheel cache fields and streams of a
settled state. -/
theorem prepare_inputs_wheel_stable (l : List UserInput) :
    ∀ p : PreparedInputStreams, WheelSettled p →
      (p.prepare_inputs l).mouse_wheel_cached = p.mouse_wheel_cached ∧
        (p.prepare_inputs l).total_mouse_wheel_movement = p.total_mouse_wheel_movement ∧
        (p.prepare_inputs l).input_streams = p.input_streams := by
  induction l with
  | nil => exact fun p _ => ⟨rfl, rfl, rfl⟩
  | cons u rest ih =>
    intro p h
    obtain ⟨h1, h2, h3⟩ := prepare_input_wheel_stable p u h
    obtain ⟨g1, g2, g3⟩ := ih (p.prepare_input u) (prepare_input_wheel_settled p u h)
    exact ⟨g1.trans h1, g2.trans h2, g3.trans h3⟩

/-- Wheel-direction queries on a state whose wheel accumulator is zero read
as unpressed with value zero. -/
theorem wheel_queries_zero (st : PreparedInputStreams)
    (h : st.total_mouse_wheel_movement = ⟨0, 0⟩) (d : MouseWheelDirection) :
    st.input_pressed (UserInput.single (InputKind.mouseWheel d)) = false ∧
      st.input_value (UserInput.single (InputKind.mouseWheel d)) = 0 := by
  have hp : st.input_pressed (UserInput.single (InputKind.mouseWheel d)) = false := by
    cases d <;>
      simp [PreparedInputStreams.input_pressed, PreparedInputStreams.button_pressed, h]
  refine ⟨hp, ?_⟩
  cases d <;>
    simp [PreparedInputStreams.input_value, PreparedInputStreams.input_kind_value, hp]

/-- Motion-direction queries on a state whose motion accumulator is zero read
as unpressed with value zero. -/
theorem motion_queries_zero (st : PreparedInputStreams)
    (h : st.total_mouse_movement = ⟨0, 0⟩) (d : MouseMotionDirection) :
    st.input_pressed (UserInput.single (InputKind.mouseMotion d)) = false ∧
      st.input_value (UserInput.single (InputKind.mouseMotion d)) = 0 := by
  have hp : st.input_pressed (UserInput.single (InputKind.mouseMotion d)) = false := by
    cases d <;>
      simp [PreparedInputStreams.input_pressed, PreparedInputStreams.button_pressed, h]
  refine ⟨hp, ?_⟩
  cases d <;>
    simp [PreparedInputStreams.input_value, PreparedInputStreams.input_kind_value, hp]

/-- A single wheel axis on a state whose wheel accumulator is zero reads as
zero (both branches of the dead-zone filter yield zero there). -/
theorem wheel_axis_value_zero (st : PreparedInputStreams)
    (h : st.total_mouse_wheel_movement = ⟨0, 0⟩) (ax : MouseWheelAxisType) (lo hi : ℚ) :
    st.input_value
        (UserInput.single (InputKind.singleAxis ⟨AxisType.mouseWheel ax, lo, hi⟩)) = 0 := by
  cases ax <;>
    · simp only [PreparedInputStreams.input_value, PreparedInputStreams.input_kind_value,
        PreparedInputStreams.single_axis_value, h, value_in_axis_range]
      split <;> rfl

/-- C1 counterexample: for the single axis `axC1` with thresholds
`(3/10, 1/2)` and raw reading `2/5` inside the band, `input_value` is 0 as
the claim states, but `button_pressed` is true, contradicting the claim's
"button_pressed is false" for in-band readings. -/
theorem C1_counterexample :
    ((3 : ℚ)/10 ≤ 2/5 ∧ (2 : ℚ)/5 ≤ 1/2) ∧
      pC1.input_value (UserInput.single (InputKind.singleAxis axC1)) = 0 ∧
      pC1.button_pressed (InputKind.singleAxis axC1) = true := by
  refine ⟨by norm_num, ?_, ?_⟩
  · norm_num [pC1, sC1, emptyStreams, axC1, PreparedInputStreams.fromStreams,
      PreparedInputStreams.input_value, PreparedInputStreams.input_kind_value,
      PreparedInputStreams.single_axis_value, InputStreams.guess_gamepad,
      value_in_axis_range]
  · norm_num [pC1, sC1, emptyStreams, axC1, PreparedInputStreams.fromStreams,
      PreparedInputStreams.button_pressed, PreparedInputStreams.single_axis_pressed,
      PreparedInputStreams.single_axis_value, InputStreams.guess_gamepad,
      value_in_axis_range]

/-- C1 (amended): for a single gamepad axis with thresholds `(lo, hi)` and a
raw reading `r`: inside the band the value is 0 and pressed holds exactly
when the band excludes 0 (`0 < lo` or `hi < 0`), so pressed is false
whenever the band contains 0; outside the band the value is `r` unchanged
and pressed is true. -/
theorem C1_dead_zone_amended (p : PreparedInputStreams) (g a : Nat) (lo hi r : ℚ)
    (hg : p.input_streams.guess_gamepad = some g)
    (hr : p.input_streams.gamepad_axes ⟨g, a⟩ = some r) :
    (lo ≤ r ∧ r ≤ hi →
      p.input_value (UserInput.single (InputKind.singleAxis ⟨AxisType.gamepad a, lo, hi⟩)) = 0 ∧
        (p.button_pressed (InputKind.singleAxis ⟨AxisType.gamepad a, lo, hi⟩) = true ↔
          (0 < lo ∨ hi < 0))) ∧
    (¬(lo ≤ r ∧ r ≤ hi) →
      p.input_value (UserInput.single (InputKind.singleAxis ⟨AxisType.gamepad a, lo, hi⟩)) = r ∧
        p.button_pressed (InputKind.singleAxis ⟨AxisType.gamepad a, lo, hi⟩) = true) := by
  constructor
  · intro hband
    have hv : p.single_axis_value ⟨AxisType.gamepad a, lo, hi⟩ = 0 := by
      simp [PreparedInputStreams.single_axis_value, hg, hr, value_in_axis_range,
        hband.1, hband.2]
    refine ⟨?_, ?_⟩
    · simp [PreparedInputStreams.input_value, PreparedInputStreams.input_kind_value, hv]
    · simp [PreparedInputStreams.button_pressed, PreparedInputStreams.single_axis_pressed, hv]
  · intro hband
    have hro : r < lo ∨ hi < r := by
      rcases lt_or_le r lo with h1 | h1
      · exact Or.inl h1
      · refine Or.inr ?_
        by_contra h2
        push_neg at h2
        exact hband ⟨h1, h2⟩
    have hv : p.single_axis_value ⟨AxisType.gamepad a, lo, hi⟩ = r := by
      simp only [PreparedInputStreams.single_axis_value, hg, hr, Option.getD_some]
      exact if_neg hband
    refine ⟨?_, ?_⟩
    · simp [PreparedInputStreams.input_value, PreparedInputStreams.input_kind_value, hv]
    · rcases hro with h | h <;>
        simp [PreparedInputStreams.button_pressed, PreparedInputStreams.single_axis_pressed,
          hv, h]

/-- Witness for `C1_dead_zone_amended` at the concrete state `pC1`. -/
theorem C1_dead_zone_amended_witness :
    pC1.input_streams.guess_gamepad = some 0 ∧
      pC1.input_streams.gamepad_axes ⟨0, 0⟩ = some (2/5) ∧
      ((3 : ℚ)/10 ≤ 2/5 ∧ (2 : ℚ)/5 ≤ 1/2 →
        pC1.input_value
            (UserInput.single (InputKind.singleAxis ⟨AxisType.gamepad 0, 3/10, 1/2⟩)) = 0 ∧
          (pC1.button_pressed (InputKind.singleAxis ⟨AxisType.gamepad 0, 3/10, 1/2⟩) = true ↔
            ((0 : ℚ) < 3/10 ∨ (1 : ℚ)/2 < 0))) :=
  ⟨rfl, rfl, (C1_dead_zone_amended pC1 0 0 (3/10) (1/2) (2/5) rfl rfl).1⟩

/-- C3 counterexample: for the scenario-D dual axis (`x` raw `1/20` inside
its dead-zone, `y` raw `1/2` outside), `input_axis_pair` returns
`(0, 1/2)` — the `x` component is dead-zone-filtered to 0 — and not the
claimed `(1/20, 1/2)`. -/
theorem C3_counterexample :
    (PreparedInputStreams.fromStreams sC3).input_axis_pair
        (UserInput.single (InputKind.dualAxis ⟨axC3x, axC3y⟩)) =
      some (DualAxisData.new 0 (1/2)) ∧
      (PreparedInputStreams.fromStreams sC3).input_axis_pair
          (UserInput.single (InputKind.dualAxis ⟨axC3x, axC3y⟩)) ≠
        some (DualAxisData.new (1/20) (1/2)) := by
  have e : (PreparedInputStreams.fromStreams sC3).input_axis_pair
      (UserInput.single (InputKind.dualAxis ⟨axC3x, axC3y⟩)) =
      some (DualAxisData.new 0 (1/2)) := by
    norm_num [sC3, emptyStreams, axC3x, axC3y, PreparedInputStreams.fromStreams,
      PreparedInputStreams.input_axis_pair, PreparedInputStreams.dual_axis_pair,
      PreparedInputStreams.single_axis_value, InputStreams.guess_gamepad,
      value_in_axis_range, DualAxisData.new]
  refine ⟨e, ?_⟩
  rw [e]
  intro h
  have hx : (0 : ℚ) = 1/20 := congrArg (fun o => (o.getD (DualAxisData.new 0 0)).x) h
  norm_num at hx

/-- C3 (amended): with `x` raw `1/20` inside its dead-zone `[-1/10, 1/10]`
and `y` raw `1/2` above its positive threshold, the coarse gate passes
because the `y` component crosses its threshold, and `input_axis_pair`
returns the dead-zone-filtered components `(0, 1/2)`. -/
theorem C3_amended :
    (axC3x.negative_low ≤ 1/20 ∧ (1 : ℚ)/20 ≤ axC3x.positive_low) ∧
      axC3y.positive_low < 1/2 ∧
      (PreparedInputStreams.fromStreams sC3).input_axis_pair
          (UserInput.single (InputKind.dualAxis ⟨axC3x, axC3y⟩)) =
        some (DualAxisData.new 0 (1/2)) := by
  refine ⟨⟨by norm_num [axC3x], by norm_num [axC3x]⟩, by norm_num [axC3y], ?_⟩
  norm_num [sC3, emptyStreams, axC3x, axC3y, PreparedInputStreams.fromStreams,
    PreparedInputStreams.input_axis_pair, PreparedInputStreams.dual_axis_pair,
    PreparedInputStreams.single_axis_value, InputStreams.guess_gamepad,
    value_in_axis_range, DualAxisData.new]

/-- C5: `guess_gamepad` returns the pinned gamepad whenever one is set,
otherwise the first connected gamepad, otherwise none; and with no pin and
no connected gamepads the gamepad-scoped queries (`button_pressed` on a
gamepad button, `input_value` on a gamepad button or gamepad single axis)
return false or 0 without error. -/
theorem C5_gamepad_resolution (p : PreparedInputStreams) (g b a : Nat) (lo hi : ℚ) :
    (p.input_streams.associated_gamepad = some g →
      p.input_streams.guess_gamepad = some g) ∧
    (p.input_streams.associated_gamepad = none →
      p.input_streams.guess_gamepad = p.input_streams.gamepads.head?) ∧
    (p.input_streams.associated_gamepad = none → p.input_streams.gamepads = [] →
      p.button_pressed (InputKind.gamepadButton b) = false ∧
        p.input_value (UserInput.single (InputKind.gamepadButton b)) = 0 ∧
        p.input_value
          (UserInput.single (InputKind.singleAxis ⟨AxisType.gamepad a, lo, hi⟩)) = 0) := by
  refine ⟨fun h => ?_, fun h => ?_, fun h1 h2 => ?_⟩
  · simp [InputStreams.guess_gamepad, h]
  · simp [InputStreams.guess_gamepad, h]
  · have hg : p.input_streams.guess_gamepad = none := by
      simp [InputStreams.guess_gamepad, h1, h2]
    exact ⟨by simp [PreparedInputStreams.button_pressed, hg],
      by simp [PreparedInputStreams.input_value, PreparedInputStreams.input_kind_value, hg],
      by simp [PreparedInputStreams.input_value, PreparedInputStreams.input_kind_value,
        PreparedInputStreams.single_axis_value, hg]⟩

/-- Witness for `C5_gamepad_resolution` at the empty streams. -/
theorem C5_gamepad_resolution_witness :
    freshEmpty.input_streams.associated_gamepad = none ∧
      freshEmpty.input_streams.gamepads = [] ∧
      (freshEmpty.button_pressed (InputKind.gamepadButton 0) = false ∧
        freshEmpty.input_value (UserInput.single (InputKind.gamepadButton 0)) = 0 ∧
        freshEmpty.input_value
          (UserInput.single (InputKind.singleAxis ⟨AxisType.gamepad 0, 0, 0⟩)) = 0) :=
  ⟨rfl, rfl, (C5_gamepad_resolution freshEmpty 0 0 0 0 0).2.2 rfl rfl⟩

/-- C6: a chord is pressed iff every member kind is pressed (the empty chord
vacuously so); `all_buttons_pressed` is the conjunction over the set; and
`any_pressed` is the disjunction of `input_pressed` over the set. -/
theorem C6_chord_any_all (p : PreparedInputStreams) (l : List InputKind)
    (ul : List UserInput) :
    (p.input_pressed (UserInput.chord l) = true ↔ ∀ k ∈ l, p.button_pressed k = true) ∧
      p.input_pressed (UserInput.chord []) = true ∧
      (p.all_buttons_pressed l = true ↔ ∀ k ∈ l, p.button_pressed k = true) ∧
      (p.any_pressed ul = true ↔ ∃ u ∈ ul, p.input_pressed u = true) := by
  refine ⟨?_, rfl, ?_, ?_⟩
  · simp [PreparedInputStreams.input_pressed, PreparedInputStreams.all_buttons_pressed,
      List.all_eq_true]
  · simp [PreparedInputStreams.all_buttons_pressed, List.all_eq_true]
  · simp [PreparedInputStreams.any_pressed, List.any_eq_true]

/-- Witness for `C6_chord_any_all`: the empty chord is vacuously pressed. -/
theorem C6_chord_any_all_witness : freshEmpty.input_pressed (UserInput.chord []) = true :=
  (C6_chord_any_all freshEmpty [] []).2.1

/-- C7: the value of a virtual axis is the absolute value of its positive
member's value minus the absolute value of its negative member's value; and
when both member values are binary (0 or 1) the result is -1, 0 or 1. -/
theorem C7_virtual_axis (p : PreparedInputStreams) (va : VirtualAxis) :
    p.input_value (UserInput.virtualAxis va) =
      |p.input_value (UserInput.single va.positive)| -
        |p.input_value (UserInput.single va.negative)| ∧
    ((p.input_value (UserInput.single va.positive) = 0 ∨
        p.input_value (UserInput.single va.positive) = 1) →
      (p.input_value (UserInput.single va.negative) = 0 ∨
        p.input_value (UserInput.single va.negative) = 1) →
      (p.input_value (UserInput.virtualAxis va) = -1 ∨
        p.input_value (UserInput.virtualAxis va) = 0 ∨
        p.input_value (UserInput.virtualAxis va) = 1)) := by
  have e : p.input_value (UserInput.virtualAxis va) =
      |p.input_value (UserInput.single va.positive)| -
        |p.input_value (UserInput.single va.negative)| := rfl
  refine ⟨e, fun hp hn => ?_⟩
  rcases hp with hp | hp <;> rcases hn with hn | hn <;> rw [e, hp, hn] <;> norm_num

/-- Witness for `C7_virtual_axis` on a virtual axis of two keyboard keys over
the empty streams (both member values are 0). -/
theorem C7_virtual_axis_witness :
    (freshEmpty.input_value (UserInput.single (InputKind.keyboard 1)) = 0 ∨
        freshEmpty.input_value (UserInput.single (InputKind.keyboard 1)) = 1) ∧
      (freshEmpty.input_value (UserInput.single (InputKind.keyboard 0)) = 0 ∨
        freshEmpty.input_value (UserInput.single (InputKind.keyboard 0)) = 1) ∧
      (freshEmpty.input_value
            (UserInput.virtualAxis ⟨InputKind.keyboard 0, InputKind.keyboard 1⟩) = -1 ∨
        freshEmpty.input_value
            (UserInput.virtualAxis ⟨InputKind.keyboard 0, InputKind.keyboard 1⟩) = 0 ∨
        freshEmpty.input_value
            (UserInput.virtualAxis ⟨InputKind.keyboard 0, InputKind.keyboard 1⟩) = 1) :=
  ⟨Or.inl (by decide), Or.inl (by decide),
    (C7_virtual_axis freshEmpty ⟨InputKind.keyboard 0, InputKind.keyboard 1⟩).2
      (Or.inl (by decide)) (Or.inl (by decide))⟩

/-- C10: the query functions are pure readers of the prepared state (modelled
as functions of the state, as the source's shared-borrow methods are), so on
a freshly constructed instance whose caches were never populated every
mouse-wheel-direction and mouse-motion-direction query reads the zero
accumulator and returns false or 0, regardless of the events in the
underlying logs. -/
theorem C10_fresh_queries_neutral (s : InputStreams) (dw : MouseWheelDirection)
    (dm : MouseMotionDirection) :
    (PreparedInputStreams.fromStreams s).input_pressed
        (UserInput.single (InputKind.mouseWheel dw)) = false ∧
      (PreparedInputStreams.fromStreams s).input_value
        (UserInput.single (InputKind.mouseWheel dw)) = 0 ∧
      (PreparedInputStreams.fromStreams s).input_pressed
        (UserInput.single (InputKind.mouseMotion dm)) = false ∧
      (PreparedInputStreams.fromStreams s).input_value
        (UserInput.single (InputKind.mouseMotion dm)) = 0 := by
  obtain ⟨h1, h2⟩ := wheel_queries_zero (PreparedInputStreams.fromStreams s) rfl dw
  obtain ⟨h3, h4⟩ := motion_queries_zero (PreparedInputStreams.fromStreams s) rfl dm
  exact ⟨h1, h2, h3, h4⟩

/-- The non-momentum phase is distinct from the momentum phase. -/
theorem active_ne_momentum :
    MouseScrollMomentumPhase.active ≠ MouseScrollMomentumPhase.momentum := fun h =>
  MouseScrollMomentumPhase.noConfusion h

/-- C2 counterexample: on a fresh (unprepared) instance over streams whose
wheel log holds an upward event, the first wheel-direction query returns
false and value 0 even though the accumulated wheel vector (what
`cache_mouse_wheel` would compute) has a strictly positive `y` — so queries
do not populate the accumulator on demand. -/
theorem C2_counterexample :
    (PreparedInputStreams.fromStreams sC2).input_pressed
        (UserInput.single (InputKind.mouseWheel MouseWheelDirection.up)) = false ∧
      (PreparedInputStreams.fromStreams sC2).input_value
        (UserInput.single (InputKind.mouseWheel MouseWheelDirection.up)) = 0 ∧
      0 < (wheel_total [wheelEventLine1]).y ∧
      ((PreparedInputStreams.fromStreams sC2).cache_mouse_wheel).total_mouse_wheel_movement =
        wheel_total [wheelEventLine1] := by
  refine ⟨(wheel_queries_zero _ rfl _).1, (wheel_queries_zero _ rfl _).2, ?_, ?_⟩
  · norm_num [wheel_total, wheelEventLine1, PIXELS_PER_LINE, active_ne_momentum]
  · have e := cache_mouse_wheel_fills (PreparedInputStreams.fromStreams sC2)
      [wheelEventLine1] rfl rfl
    rw [e]

/-- C2 (amended): the accumulators are populated when inputs are declared
via `prepare_input` (hence `prepare_inputs` / `from_inputs`): preparing a
`MouseWheel` direction or a wheel-sourced `SingleAxis` fills the wheel
accumulator from the event log, preparing a `MouseMotion` direction or a
motion-sourced `SingleAxis` fills the motion accumulator, and a query on the
prepared instance then reflects the accumulated events. Queries themselves
never populate the caches. -/
theorem C2_prepare_populates (s : InputStreams) (es : List MouseWheel)
    (dw : MouseWheelDirection) (dm : MouseMotionDirection)
    (wax : MouseWheelAxisType) (mx : MouseMotionAxisType) (lo hi : ℚ)
    (h : s.mouse_wheel = some es) :
    ((PreparedInputStreams.fromStreams s).prepare_input
        (UserInput.single (InputKind.mouseWheel dw))).mouse_wheel_cached = true ∧
      ((PreparedInputStreams.fromStreams s).prepare_input
          (UserInput.single (InputKind.mouseWheel dw))).total_mouse_wheel_movement =
        wheel_total es ∧
      ((PreparedInputStreams.fromStreams s).prepare_input
          (UserInput.single
            (InputKind.singleAxis ⟨AxisType.mouseWheel wax, lo, hi⟩))).mouse_wheel_cached =
        true ∧
      ((PreparedInputStreams.fromStreams s).prepare_input
          (UserInput.single (InputKind.mouseMotion dm))).mouse_movement_cached = true ∧
      ((PreparedInputStreams.fromStreams s).prepare_input
          (UserInput.single (InputKind.mouseMotion dm))).total_mouse_movement =
        motion_total s.mouse_motion ∧
      ((PreparedInputStreams.fromStreams s).prepare_input
          (UserInput.single
            (InputKind.singleAxis ⟨AxisType.mouseMotion mx, lo, hi⟩))).mouse_movement_cached =
        true ∧
      (((PreparedInputStreams.fromStreams s).prepare_input
            (UserInput.single (InputKind.mouseWheel MouseWheelDirection.up))).input_pressed
          (UserInput.single (InputKind.mouseWheel MouseWheelDirection.up)) = true ↔
        0 < (wheel_total es).y) := by
  have e1 : (PreparedInputStreams.fromStreams s).prepare_input
      (UserInput.single (InputKind.mouseWheel dw)) =
      { PreparedInputStreams.fromStreams s with
        mouse_wheel_cached := true
        total_mouse_wheel_movement := wheel_total es } :=
    cache_mouse_wheel_fills (PreparedInputStreams.fromStreams s) es rfl h
  have e2 : (PreparedInputStreams.fromStreams s).prepare_input
      (UserInput.single (InputKind.singleAxis ⟨AxisType.mouseWheel wax, lo, hi⟩)) =
      { PreparedInputStreams.fromStreams s with
        mouse_wheel_cached := true
        total_mouse_wheel_movement := wheel_total es } :=
    cache_mouse_wheel_fills (PreparedInputStreams.fromStreams s) es rfl h
  have e3 : (PreparedInputStreams.fromStreams s).prepare_input
      (UserInput.single (InputKind.mouseMotion dm)) =
      { PreparedInputStreams.fromStreams s with
        mouse_movement_cached := true
        total_mouse_movement := motion_total s.mouse_motion } := rfl
  have e4 : (PreparedInputStreams.fromStreams s).prepare_input
      (UserInput.single (InputKind.singleAxis ⟨AxisType.mouseMotion mx, lo, hi⟩)) =
      { PreparedInputStreams.fromStreams s with
        mouse_movement_cached := true
        total_mouse_movement := motion_total s.mouse_motion } := rfl
  have e5 : (PreparedInputStreams.fromStreams s).prepare_input
      (UserInput.single (InputKind.mouseWheel MouseWheelDirection.up)) =
      { PreparedInputStreams.fromStreams s with
        mouse_wheel_cached := true
        total_mouse_wheel_movement := wheel_total es } :=
    cache_mouse_wheel_fills (PreparedInputStreams.fromStreams s) es rfl h
  refine ⟨by rw [e1], by rw [e1], by rw [e2], by rw [e3], by rw [e3], by rw [e4], ?_⟩
  rw [e5]
  simp [PreparedInputStreams.input_pressed, PreparedInputStreams.button_pressed]

/-- Witness for `C2_prepare_populates` at the streams `sC2`. -/
theorem C2_prepare_populates_witness :
    sC2.mouse_wheel = some [wheelEventLine1] ∧
      ((PreparedInputStreams.fromStreams sC2).prepare_input
          (UserInput.single (InputKind.mouseWheel MouseWheelDirection.up))).mouse_wheel_cached =
        true :=
  ⟨rfl, (C2_prepare_populates sC2 [wheelEventLine1] MouseWheelDirection.up
      MouseMotionDirection.up MouseWheelAxisType.x MouseMotionAxisType.x 0 0 rfl).1⟩

/-- C4: within one instance each accumulator is computed at most once and
never recomputed: constructing an instance prepared for two different wheel
directions leaves the wheel accumulator at the single drain `wheel_total es`
(not a double sum), preparing any further inputs changes neither the flag
nor the accumulator, and both cache fillers are idempotent. -/
theorem C4_single_drain (s : InputStreams) (es : List MouseWheel)
    (d1 d2 : MouseWheelDirection) (l : List UserInput)
    (h : s.mouse_wheel = some es) :
    (PreparedInputStreams.from_inputs s
          [UserInput.single (InputKind.mouseWheel d1),
            UserInput.single (InputKind.mouseWheel d2)]).total_mouse_wheel_movement =
      wheel_total es ∧
    (PreparedInputStreams.from_inputs s
          [UserInput.single (InputKind.mouseWheel d1),
            UserInput.single (InputKind.mouseWheel d2)]).mouse_wheel_cached = true ∧
    ((PreparedInputStreams.from_inputs s
            [UserInput.single (InputKind.mouseWheel d1),
              UserInput.single (InputKind.mouseWheel d2)]).prepare_inputs
          l).total_mouse_wheel_movement = wheel_total es ∧
    ((PreparedInputStreams.from_inputs s
            [UserInput.single (InputKind.mouseWheel d1),
              UserInput.single (InputKind.mouseWheel d2)]).prepare_inputs
          l).mouse_wheel_cached = true ∧
    (∀ q : PreparedInputStreams, q.cache_mouse_wheel.cache_mouse_wheel = q.cache_mouse_wheel) ∧
    (∀ q : PreparedInputStreams,
      q.cache_mouse_movement.cache_mouse_movement = q.cache_mouse_movement) := by
  have e1 : (PreparedInputStreams.fromStreams s).prepare_input
      (UserInput.single (InputKind.mouseWheel d1)) =
      { PreparedInputStreams.fromStreams s with
        mouse_wheel_cached := true
        total_mouse_wheel_movement := wheel_total es } :=
    cache_mouse_wheel_fills (PreparedInputStreams.fromStreams s) es rfl h
  have hset1 : WheelSettled ((PreparedInputStreams.fromStreams s).prepare_input
      (UserInput.single (InputKind.mouseWheel d1))) := by
    rw [e1]; exact Or.inl rfl
  obtain ⟨b1, b2, b3⟩ :=
    prepare_input_wheel_stable _ (UserInput.single (InputKind.mouseWheel d2)) hset1
  have ef : PreparedInputStreams.from_inputs s
      [UserInput.single (InputKind.mouseWheel d1),
        UserInput.single (InputKind.mouseWheel d2)] =
      ((PreparedInputStreams.fromStreams s).prepare_input
          (UserInput.single (InputKind.mouseWheel d1))).prepare_input
        (UserInput.single (InputKind.mouseWheel d2)) := rfl
  have t1 : (PreparedInputStreams.from_inputs s
      [UserInput.single (InputKind.mouseWheel d1),
        UserInput.single (InputKind.mouseWheel d2)]).total_mouse_wheel_movement =
      wheel_total es := by
    rw [ef, b2, e1]
  have t2 : (PreparedInputStreams.from_inputs s
      [UserInput.single (InputKind.mouseWheel d1),
        UserInput.single (InputKind.mouseWheel d2)]).mouse_wheel_cached = true := by
    rw [ef, b1, e1]
  have hset2 : WheelSettled (PreparedInputStreams.from_inputs s
      [UserInput.single (InputKind.mouseWheel d1),
        UserInput.single (InputKind.mouseWheel d2)]) := Or.inl t2
  obtain ⟨c1, c2, c3⟩ := prepare_inputs_wheel_stable l _ hset2
  refine ⟨t1, t2, c2.trans t1, c1.trans t2, fun q => ?_, fun q => ?_⟩
  · cases hc : q.mouse_wheel_cached with
    | true =>
      rw [cache_mouse_wheel_stable q (Or.inl hc), cache_mouse_wheel_stable q (Or.inl hc)]
    | false =>
      cases hw : q.input_streams.mouse_wheel with
      | none =>
        rw [cache_mouse_wheel_stable q (Or.inr hw), cache_mouse_wheel_stable q (Or.inr hw)]
      | some es2 =>
        rw [cache_mouse_wheel_fills q es2 hc hw]
        exact cache_mouse_wheel_stable _ (Or.inl rfl)
  · cases hc : q.mouse_movement_cached with
    | true => simp [PreparedInputStreams.cache_mouse_movement, hc]
    | false => simp [PreparedInputStreams.cache_mouse_movement, hc]

/-- Witness for `C4_single_drain` at the streams `sC2`. -/
theorem C4_single_drain_witness :
    sC2.mouse_wheel = some [wheelEventLine1] ∧
      (PreparedInputStreams.from_inputs sC2
          [UserInput.single (InputKind.mouseWheel MouseWheelDirection.up),
            UserInput.single
              (InputKind.mouseWheel MouseWheelDirection.down)]).total_mouse_wheel_movement =
        wheel_total [wheelEventLine1] :=
  ⟨rfl, (C4_single_drain sC2 [wheelEventLine1] MouseWheelDirection.up
      MouseWheelDirection.down [] rfl).1⟩

/-- C8: a momentum-phase wheel event anywhere in the log never changes the
accumulator; a non-momentum line-unit event adds its deltas scaled by 14; a
non-momentum pixel-unit event adds its deltas unscaled; and for scenario B's
log (line event `y = 1`, pixel event `y = 2`) the prepared accumulator's `y`
equals `1 * 14 + 2 = 16` and the upward wheel direction is pressed. -/
theorem C8_wheel_accumulation (es1 es2 : List MouseWheel) (e : MouseWheel) :
    (e.momentum_phase = MouseScrollMomentumPhase.momentum →
      wheel_total (es1 ++ e :: es2) = wheel_total (es1 ++ es2)) ∧
    (e.momentum_phase ≠ MouseScrollMomentumPhase.momentum →
      e.unit = MouseScrollUnit.line →
      wheel_total (es1 ++ [e]) =
        ⟨(wheel_total es1).x + e.x * 14, (wheel_total es1).y + e.y * 14⟩) ∧
    (e.momentum_phase ≠ MouseScrollMomentumPhase.momentum →
      e.unit = MouseScrollUnit.pixel →
      wheel_total (es1 ++ [e]) =
        ⟨(wheel_total es1).x + e.x, (wheel_total es1).y + e.y⟩) ∧
    (PreparedInputStreams.from_inputs sB
        [UserInput.single
          (InputKind.mouseWheel MouseWheelDirection.up)]).total_mouse_wheel_movement.y = 16 ∧
    (PreparedInputStreams.from_inputs sB
          [UserInput.single (InputKind.mouseWheel MouseWheelDirection.up)]).input_pressed
        (UserInput.single (InputKind.mouseWheel MouseWheelDirection.up)) = true := by
  refine ⟨fun hm => ?_, fun hm hu => ?_, fun hm hu => ?_, ?_, ?_⟩
  · simp [wheel_total, List.foldl_append, hm]
  · simp [wheel_total, List.foldl_append, hm, hu, PIXELS_PER_LINE]
  · simp [wheel_total, List.foldl_append, hm, hu]
  · norm_num [PreparedInputStreams.from_inputs, PreparedInputStreams.prepare_inputs,
      PreparedInputStreams.prepare_input, PreparedInputStreams.prepare_input_kind,
      PreparedInputStreams.cache_mouse_wheel, PreparedInputStreams.fromStreams, sB,
      emptyStreams, wheel_total, wheelEventLine1, wheelEventPixel2, PIXELS_PER_LINE,
      active_ne_momentum]
  · norm_num [PreparedInputStreams.from_inputs, PreparedInputStreams.prepare_inputs,
      PreparedInputStreams.prepare_input, PreparedInputStreams.prepare_input_kind,
      PreparedInputStreams.cache_mouse_wheel, PreparedInputStreams.fromStreams, sB,
      emptyStreams, wheel_total, wheelEventLine1, wheelEventPixel2, PIXELS_PER_LINE,
      active_ne_momentum, PreparedInputStreams.input_pressed,
      PreparedInputStreams.button_pressed]

/-- Witness for `C8_wheel_accumulation` on the pixel event of scenario B. -/
theorem C8_wheel_accumulation_witness :
    wheelEventPixel2.momentum_phase ≠ MouseScrollMomentumPhase.momentum ∧
      wheelEventPixel2.unit = MouseScrollUnit.pixel ∧
      wheel_total ([wheelEventLine1] ++ [wheelEventPixel2]) =
        ⟨(wheel_total [wheelEventLine1]).x + wheelEventPixel2.x,
          (wheel_total [wheelEventLine1]).y + wheelEventPixel2.y⟩ :=
  ⟨by decide, rfl,
    (C8_wheel_accumulation [wheelEventLine1] [] wheelEventPixel2).2.2.1 (by decide) rfl⟩

/-- C9: when no wheel-event source is available, every wheel-direction and
wheel-axis query on a prepared instance returns false or 0, the wheel cache
flag stays false with a zero accumulator, and `cache_mouse_wheel` is a no-op
that re-runs (it never marks the cache). -/
theorem C9_no_wheel_source (s : InputStreams) (l : List UserInput)
    (d : MouseWheelDirection) (ax : MouseWheelAxisType) (lo hi : ℚ)
    (h : s.mouse_wheel = none) :
    (PreparedInputStreams.from_inputs s l).mouse_wheel_cached = false ∧
      (PreparedInputStreams.from_inputs s l).total_mouse_wheel_movement = ⟨0, 0⟩ ∧
      (PreparedInputStreams.from_inputs s l).cache_mouse_wheel =
        PreparedInputStreams.from_inputs s l ∧
      (PreparedInputStreams.from_inputs s l).input_pressed
        (UserInput.single (InputKind.mouseWheel d)) = false ∧
      (PreparedInputStreams.from_inputs s l).input_value
        (UserInput.single (InputKind.mouseWheel d)) = 0 ∧
      (PreparedInputStreams.from_inputs s l).input_value
        (UserInput.single (InputKind.singleAxis ⟨AxisType.mouseWheel ax, lo, hi⟩)) = 0 := by
  have hset : WheelSettled (PreparedInputStreams.fromStreams s) := Or.inr h
  obtain ⟨h1, h2, h3⟩ := prepare_inputs_wheel_stable l (PreparedInputStreams.fromStreams s) hset
  have e1 : (PreparedInputStreams.from_inputs s l).mouse_wheel_cached = false := h1
  have e2 : (PreparedInputStreams.from_inputs s l).total_mouse_wheel_movement = ⟨0, 0⟩ := h2
  have hnone : (PreparedInputStreams.from_inputs s l).input_streams.mouse_wheel = none := by
    rw [show (PreparedInputStreams.from_inputs s l).input_streams =
      (PreparedInputStreams.fromStreams s).input_streams from h3]
    exact h
  obtain ⟨q1, q2⟩ := wheel_queries_zero _ e2 d
  exact ⟨e1, e2, cache_mouse_wheel_stable _ (Or.inr hnone), q1, q2,
    wheel_axis_value_zero _ e2 ax lo hi⟩

/-- Witness for `C9_no_wheel_source` at the empty streams. -/
theorem C9_no_wheel_source_witness :
    emptyStreams.mouse_wheel = none ∧
      (PreparedInputStreams.from_inputs emptyStreams []).mouse_wheel_cached = false :=
  ⟨rfl, (C9_no_wheel_source emptyStreams [] MouseWheelDirection.up
      MouseWheelAxisType.x 0 0 rfl).1⟩
